import Mathlib

/-!
A shallow embedding of the quill message pipeline (repository
`massimo-ua/quill`), covering the domain value objects
(`internal/domain/*.go`), the bot-service routing pipeline
(`internal/domain/services/bot_service.go` and the documentation
service), and the Slack thread-correlation logic
(`internal/providers/chat/slack/client.go`).

Modelling conventions:
* Go strings are Lean `String`s; where byte-level behaviour matters
  (content truncation) a Go string is a `List Char` of runes and its
  byte representation is the UTF-8 encoding as a `List Nat`.
* Go `float64` values are embedded as exact rationals `ℚ`; the source
  literal `0.8` is the rational `mkRat 4 5` (written with `mkRat` so
  that comparisons reduce in the kernel).
* Go errors are `Except String`; `fmt.Errorf("...: %w", err)` becomes
  prefix concatenation onto the wrapped error string.
* External collaborators (AI agent, document store, chat transport)
  are oracles: each call a message makes at most once is a fixed
  `Except` value in an `Oracles` record, and successful side effects
  are recorded in an event trace.
-/

namespace Quill

/-- Go errors are modelled as their message strings. -/
abbrev GoError := String

/-! ### Message types (`message_type.go`) -/

/-- `MessageType` is a Go string type. -/
abbrev MessageType := String

def MessageTypeIdea : MessageType := "idea"

def MessageTypeDecision : MessageType := "decision"

def MessageTypeStatus : MessageType := "status"

def MessageTypeUnknown : MessageType := "unknown"

/-- Embeds `MessageType.IsValid`: membership in `validMessageTypes`.
(The legacy value `"information"` used by the Slack client is not a
member, exactly as in `validMessageTypes`.) -/
def MessageType.IsValid (mt : MessageType) : Bool :=
  mt == MessageTypeIdea || mt == MessageTypeDecision ||
  mt == MessageTypeStatus || mt == MessageTypeUnknown

/-! ### Categories (`message_category.go`) -/

/-- `Category` is a Go string type. -/
abbrev Category := String

def CategoryOperations : Category := "operations"

def CategoryDevelopment : Category := "development"

def CategoryProduct : Category := "product"

def CategoryQualityAssurance : Category := "quality_assurance"

def CategoryDataAnalysis : Category := "data_analysis"

def CategoryOther : Category := "other"

def CategoryUnknown : Category := "unknown"

/-- Embeds `Category.IsValid`: membership in `validCategories`. -/
def Category.IsValid (c : Category) : Bool :=
  c == CategoryOperations || c == CategoryDevelopment ||
  c == CategoryProduct || c == CategoryQualityAssurance ||
  c == CategoryDataAnalysis || c == CategoryOther ||
  c == CategoryUnknown

/-! ### References (reference value object) -/

/-- Embeds the `Reference` value object: a reference type
(`"message" | "document" | "unknown"`) together with a non-empty
value. Go's `*Reference` pointers reaching `AddReference` are always
non-nil in the pipeline, so references are plain values here. -/
structure Reference where
  refType : String
  value : String
deriving DecidableEq, Repr

/-! ### Analysis results (`message_analysis_result.go`) -/

/-- Embeds `MessageAnalysisResult`. `confidenceScore` is the Go
`float64` field embedded as an exact rational. -/
structure MessageAnalysisResult where
  messageType : MessageType
  category : Category
  references : List Reference
  confidenceScore : ℚ
  suggestedTags : List String
deriving DecidableEq, Repr

def ErrInvalidConfidenceScore : GoError :=
  "confidence score must be between 0 and 1"

def ErrInvalidAnalysisResult : GoError := "invalid analysis result"

/-- Embeds `NewMessageAnalysisResult`: rejects a confidence score
outside `[0, 1]`, then rejects an invalid type or category, and
otherwise builds the result. -/
def NewMessageAnalysisResult (msgType : MessageType) (category : Category)
    (references : List Reference) (confidence : ℚ)
    (tags : List String) : Except GoError MessageAnalysisResult :=
  if confidence < 0 ∨ confidence > 1 then
    .error ErrInvalidConfidenceScore
  else if ¬msgType.IsValid ∨ ¬category.IsValid then
    .error ErrInvalidAnalysisResult
  else
    .ok { messageType := msgType, category := category,
          references := references, confidenceScore := confidence,
          suggestedTags := tags }

/-- The source literal `0.8` from `IsHighConfidence`, as an exact
rational. -/
def highConfidenceThreshold : ℚ := mkRat 4 5

/-- Embeds `MessageAnalysisResult.IsHighConfidence`:
`confidenceScore >= 0.8`. -/
def MessageAnalysisResult.IsHighConfidence
    (r : MessageAnalysisResult) : Bool :=
  highConfidenceThreshold ≤ r.confidenceScore

/-- Embeds `MessageAnalysisResult.HasSuggestedTags`. -/
def MessageAnalysisResult.HasSuggestedTags
    (r : MessageAnalysisResult) : Bool :=
  r.suggestedTags.length > 0

/-! ### Messages (`message.go`) -/

/-- Embeds the mutable state of a `Message` that the pipeline touches:
identifier, thread id, sender, content text, type, category and the
reference list. The creation timestamp is omitted (never read by the
pipeline). -/
structure Message where
  id : String
  threadID : String
  sender : String
  content : String
  messageType : MessageType
  category : Category
  references : List Reference
deriving DecidableEq, Repr

/-- Embeds `Message.UpdateCategory`: the category is replaced only
when the new one is valid; an invalid category leaves the message
unchanged (and the Go method returns nothing, so there is no error
path). -/
def Message.UpdateCategory (m : Message) (category : Category) : Message :=
  if category.IsValid then { m with category := category } else m

/-- Embeds `Message.AddReference` (the `ref != nil` guard is vacuous
for value references). -/
def Message.AddReference (m : Message) (ref : Reference) : Message :=
  { m with references := m.references ++ [ref] }

/-- Embeds `Message.HasReferences`. -/
def Message.HasReferences (m : Message) : Bool :=
  m.references.length > 0

/-- Embeds `BotService.updateMessageWithAnalysis`: update the category
from the analysis, then append every analysis reference in order. -/
def updateMessageWithAnalysis (msg : Message)
    (analysis : MessageAnalysisResult) : Message :=
  analysis.references.foldl Message.AddReference
    (msg.UpdateCategory analysis.category)

theorem addReference_foldl (refs : List Reference) (m : Message) :
    (refs.foldl Message.AddReference m).references
      = m.references ++ refs := by
  induction refs generalizing m with
  | nil => simp
  | cons r rest ih =>
      simp [List.foldl_cons, ih, Message.AddReference]

theorem addReference_foldl_fields (refs : List Reference) (m : Message) :
    (refs.foldl Message.AddReference m).category = m.category ∧
    (refs.foldl Message.AddReference m).messageType = m.messageType := by
  induction refs generalizing m with
  | nil => exact ⟨rfl, rfl⟩
  | cons r rest ih =>
      simpa [List.foldl_cons, Message.AddReference] using ih (m.AddReference r)

/-- **C3.** The analysis merge sets the message's category to the
analysis category exactly when that category is a recognized value; an
unrecognized category is dropped (the merge is a total function, so no
error is possible) and the message keeps its prior category. The
reference list is appended to, independent of the category outcome. -/
theorem merge_unrecognized_category_keeps_prior
    (msg : Message) (analysis : MessageAnalysisResult) :
    (updateMessageWithAnalysis msg analysis).category
      = (if analysis.category.IsValid then analysis.category
         else msg.category) ∧
    (updateMessageWithAnalysis msg analysis).references
      = msg.references ++ analysis.references := by
  unfold updateMessageWithAnalysis
  refine ⟨?_, ?_⟩
  · rw [(addReference_foldl_fields analysis.references
      (msg.UpdateCategory analysis.category)).1]
    by_cases h : analysis.category.IsValid
    · simp [Message.UpdateCategory, h]
    · simp [Message.UpdateCategory, h]
  · rw [addReference_foldl]
    by_cases h : analysis.category.IsValid
    · simp [Message.UpdateCategory, h]
    · simp [Message.UpdateCategory, h]

/-- **C7.** With a valid type and category, constructing an analysis
result succeeds exactly when the confidence lies in the closed
interval `[0, 1]`; in particular it succeeds at the boundaries `0` and
`1` (see the witness). -/
theorem analysis_construction_confidence_range
    (msgType : MessageType) (category : Category)
    (references : List Reference) (confidence : ℚ) (tags : List String)
    (ht : msgType.IsValid = true) (hc : category.IsValid = true) :
    (∃ r, NewMessageAnalysisResult msgType category references
        confidence tags = .ok r)
      ↔ (0 ≤ confidence ∧ confidence ≤ 1) := by
  unfold NewMessageAnalysisResult
  constructor
  · rintro ⟨r, hr⟩
    by_cases hout : confidence < 0 ∨ confidence > 1
    · simp [hout] at hr
    · push_neg at hout
      exact ⟨hout.1, hout.2⟩
  · rintro ⟨h0, h1⟩
    have hout : ¬(confidence < 0 ∨ confidence > 1) := by
      push_neg
      exact ⟨h0, h1⟩
    simp [hout, ht, hc]

/-- Witness for C7: at the boundary confidences `0` and `1` (with
type `"idea"` and category `"operations"`) construction succeeds, and
at confidence `2` it cannot succeed. -/
theorem analysis_construction_confidence_range_witness :
    (∃ r, NewMessageAnalysisResult MessageTypeIdea CategoryOperations []
        0 [] = .ok r) ∧
    (∃ r, NewMessageAnalysisResult MessageTypeIdea CategoryOperations []
        1 [] = .ok r) ∧
    ¬(∃ r, NewMessageAnalysisResult MessageTypeIdea CategoryOperations []
        2 [] = .ok r) := by
  refine ⟨?_, ?_, ?_⟩
  · exact (analysis_construction_confidence_range MessageTypeIdea
      CategoryOperations [] 0 [] (by decide) (by decide)).mpr
      ⟨le_refl 0, by norm_num⟩
  · exact (analysis_construction_confidence_range MessageTypeIdea
      CategoryOperations [] 1 [] (by decide) (by decide)).mpr
      ⟨by norm_num, le_refl 1⟩
  · intro h
    have := (analysis_construction_confidence_range MessageTypeIdea
      CategoryOperations [] 2 [] (by decide) (by decide)).mp h
    norm_num at this

/-! ### Collaborator oracles and the observable event trace
(`bot_service.go`, the documentation service, `ports.go`) -/

/-- Observable side effects and collaborator calls of one
`ProcessMessage` run: a successful document-store write, a
successfully sent reply, and the invocation of the reference-detection
oracle. -/
inductive Event
  | storeDoc (path : String) (doc : String)
  | reply (target : String) (text : String)
  | detectCall
deriving DecidableEq, Repr

/-- The external collaborators of one `ProcessMessage` run. Each
collaborator is called at most once per message, so each is a fixed
`Except` outcome: `analyze` is `AiAgentProvider.AnalyzeMessage`,
`detect` is `AiAgentProvider.DetectReferences`, `generateDoc` is
`AiAgentProvider.GenerateDocumentation`, `store` is
`DocumentStoreProvider.StoreDocument`, `send` is
`ChatAccessProvider.ReplyToMessage`, and `now` is the formatted
`time.Now()` timestamp read by `generatePath`. -/
structure Oracles where
  analyze : Except GoError MessageAnalysisResult
  detect : Except GoError (List Reference)
  generateDoc : Except GoError String
  store : Except GoError Unit
  send : Except GoError Unit
  now : String
deriving Repr

/-- Embeds `DocumentationService.generatePath`:
`filepath.Join("docs", category, fmt.Sprintf("%s-%s.md", msgType, timestamp))`.
`filepath.Join` is modelled as `/`-concatenation, which is exact for
the separator-free path components produced here. -/
def generatePath (msgType : MessageType) (category : Category)
    (timestamp : String) : String :=
  "docs" ++ "/" ++ category ++ "/" ++ (msgType ++ "-" ++ timestamp ++ ".md")

/-- Embeds `DocumentationService.CreateDocumentation`: generate the
document via the AI agent (failure wraps the error and aborts before
any store), then store it under `generatePath`; a store failure wraps
the error and records no store event. -/
def CreateDocumentation (o : Oracles) (msgType : MessageType)
    (category : Category) : Except GoError Unit × List Event :=
  match o.generateDoc with
  | .error e => (.error ("failed to generate documentation: " ++ e), [])
  | .ok doc =>
      let path := generatePath msgType category o.now
      match o.store with
      | .error e => (.error ("failed to store documentation: " ++ e), [])
      | .ok _ => (.ok (), [Event.storeDoc path doc])

/-- Embeds `ChatAccessProvider.ReplyToMessage` as observed by the
handlers: on success one reply event is recorded, on failure the error
is wrapped and nothing is sent. -/
def replyToMessage (o : Oracles) (target text : String) :
    Except GoError Unit × List Event :=
  match o.send with
  | .error e => (.error ("failed to reply to message: " ++ e), [])
  | .ok _ => (.ok (), [Event.reply target text])

/-- The reference-count suffix `"\n🔗 Linked to %d related items"`
appended by the idea/decision/status handlers when the message has
references. -/
def referenceSuffix (msg : Message) : String :=
  if msg.HasReferences then
    "\n🔗 Linked to " ++ toString msg.references.length ++ " related items"
  else ""

/-- Embeds `ideaHandler.Handle`. -/
def ideaHandle (o : Oracles) (msg : Message) :
    Except GoError Unit × List Event :=
  match CreateDocumentation o msg.messageType msg.category with
  | (.error e, evs) =>
      (.error ("failed to create idea documentation: " ++ e), evs)
  | (.ok _, evs) =>
      let reply := "📝 Captured idea in category: " ++ msg.category
        ++ referenceSuffix msg
      let (res, evs2) := replyToMessage o msg.id reply
      (res, evs ++ evs2)

/-- Embeds `decisionHandler.Handle`. -/
def decisionHandle (o : Oracles) (msg : Message) :
    Except GoError Unit × List Event :=
  match CreateDocumentation o msg.messageType msg.category with
  | (.error e, evs) =>
      (.error ("failed to create decision documentation: " ++ e), evs)
  | (.ok _, evs) =>
      let reply := "✅ Recorded decision in category: " ++ msg.category
        ++ referenceSuffix msg
      let (res, evs2) := replyToMessage o msg.id reply
      (res, evs ++ evs2)

/-- Embeds `statusHandler.Handle`. -/
def statusHandle (o : Oracles) (msg : Message) :
    Except GoError Unit × List Event :=
  match CreateDocumentation o msg.messageType msg.category with
  | (.error e, evs) =>
      (.error ("failed to create status documentation: " ++ e), evs)
  | (.ok _, evs) =>
      let reply := "📊 Logged status update in category: " ++ msg.category
        ++ referenceSuffix msg
      let (res, evs2) := replyToMessage o msg.id reply
      (res, evs ++ evs2)

/-- The fixed header of the tag-suggestion reply built by
`unknownHandler.HandleWithAnalysis`. -/
def suggestionHeader : String :=
  "💡 I noticed this might be relevant. Consider adding these tags:\n"

/-- The tag-suggestion text: the header followed by one `- #tag`
line per suggested tag, accumulated exactly as the Go `for` loop
does. -/
def suggestionText (tags : List String) : String :=
  tags.foldl (fun acc tag => acc ++ ("- #" ++ tag ++ "\n"))
    suggestionHeader

/-- Embeds `unknownHandler.HandleWithAnalysis`: without high
confidence or without suggested tags it returns `nil` doing nothing;
otherwise it sends the tag-suggestion reply. -/
def handleUnknownWithAnalysis (o : Oracles) (msg : Message)
    (analysis : MessageAnalysisResult) :
    Except GoError Unit × List Event :=
  if ¬analysis.IsHighConfidence ∨ ¬analysis.HasSuggestedTags then
    (.ok (), [])
  else
    replyToMessage o msg.id (suggestionText analysis.suggestedTags)

/-- Embeds the handler dispatch of `BotService.ProcessMessage`: the
`handlers` map keyed by the analysis message type, where only the
unknown handler implements `SuggestionsHandler` and therefore receives
the analysis. A type outside the map would make the Go code
dereference a nil interface (a runtime panic), modelled as an error
result. -/
def route (o : Oracles) (msg : Message)
    (analysis : MessageAnalysisResult) :
    Except GoError Unit × List Event :=
  if analysis.messageType = MessageTypeIdea then ideaHandle o msg
  else if analysis.messageType = MessageTypeDecision then
    decisionHandle o msg
  else if analysis.messageType = MessageTypeStatus then
    statusHandle o msg
  else if analysis.messageType = MessageTypeUnknown then
    handleUnknownWithAnalysis o msg analysis
  else (.error "runtime panic: nil message handler", [])

/-- Embeds `BotService.analyzeMessage`: wraps an oracle failure as
`"AI analysis failed: %w"`. -/
def analyzeMessage (o : Oracles) : Except GoError MessageAnalysisResult :=
  match o.analyze with
  | .error e => .error ("AI analysis failed: " ++ e)
  | .ok a => .ok a

/-- Embeds `BotService.detectAndAddReferences`: on oracle failure the
wrapped error is returned and the message is untouched; on success
every detected reference is appended. -/
def detectAndAddReferences (o : Oracles) (msg : Message) :
    Except GoError Message :=
  match o.detect with
  | .error e => .error ("failed to detect references: " ++ e)
  | .ok refs => .ok (refs.foldl Message.AddReference msg)

/-- Embeds `BotService.ProcessMessage` for one message (`ctx` and
`msg` non-nil): analyze, merge the analysis into the message, detect
references only when the merged message has none, then route. The
result carries the Go error value, the final state of the in-place
mutated message, and the event trace. -/
def ProcessMessage (o : Oracles) (msg : Message) :
    Except GoError Unit × Message × List Event :=
  match analyzeMessage o with
  | .error e => (.error ("failed to analyze message: " ++ e), msg, [])
  | .ok analysis =>
      let merged := updateMessageWithAnalysis msg analysis
      if ¬merged.HasReferences then
        match detectAndAddReferences o merged with
        | .error e => (.error e, merged, [Event.detectCall])
        | .ok withRefs =>
            let (res, evs) := route o withRefs analysis
            (res, withRefs, Event.detectCall :: evs)
      else
        let (res, evs) := route o merged analysis
        (res, merged, evs)

/-! ### Helper lemmas about the handlers and the event trace -/

/-- `pat` occurs as a contiguous substring of `s`. -/
def containsSub (s pat : String) : Prop :=
  ∃ p q, s.data = p ++ pat.data ++ q

theorem suggestion_foldl_extends (tags : List String) (acc : String) :
    ∃ q, (tags.foldl (fun a tag => a ++ ("- #" ++ tag ++ "\n")) acc).data
      = acc.data ++ q := by
  induction tags generalizing acc with
  | nil => exact ⟨[], by simp⟩
  | cons t rest ih =>
      obtain ⟨q, hq⟩ := ih (acc ++ ("- #" ++ t ++ "\n"))
      exact ⟨("- #" ++ t ++ "\n").data ++ q, by
        simp only [List.foldl_cons, hq, String.data_append, List.append_assoc]⟩

theorem suggestion_foldl_contains (tags : List String) (t : String)
    (ht : t ∈ tags) (acc : String) :
    containsSub (tags.foldl (fun a tag => a ++ ("- #" ++ tag ++ "\n")) acc)
      ("- #" ++ t ++ "\n") := by
  induction tags generalizing acc with
  | nil => cases ht
  | cons hd rest ih =>
      rcases List.mem_cons.mp ht with heq | hmem
      · subst heq
        obtain ⟨q, hq⟩ :=
          suggestion_foldl_extends rest (acc ++ ("- #" ++ t ++ "\n"))
        refine ⟨acc.data, q, ?_⟩
        simp only [List.foldl_cons, hq, String.data_append, List.append_assoc]
      · exact ih hmem (acc ++ ("- #" ++ hd ++ "\n"))

/-- No reply event occurs in the trace. -/
def noReply (evs : List Event) : Prop :=
  ∀ tgt text, Event.reply tgt text ∉ evs

/-- No store event occurs in the trace. -/
def noStore (evs : List Event) : Prop :=
  ∀ path doc, Event.storeDoc path doc ∉ evs

theorem createDocumentation_no_reply (o : Oracles) (mt : MessageType)
    (c : Category) : noReply (CreateDocumentation o mt c).2 := by
  intro tgt text
  unfold CreateDocumentation
  cases o.generateDoc with
  | error e => simp
  | ok doc => cases o.store with
    | error e => simp
    | ok u => simp

theorem ideaHandle_error_no_reply (o : Oracles) (msg : Message)
    (h : ∃ e, (ideaHandle o msg).1 = .error e) :
    noReply (ideaHandle o msg).2 := by
  intro tgt text
  obtain ⟨e, he⟩ := h
  unfold ideaHandle replyToMessage at *
  cases hg : o.generateDoc with
  | error eg => simp [CreateDocumentation, hg]
  | ok doc => cases hs : o.store with
    | error es => simp [CreateDocumentation, hg, hs]
    | ok u => cases hr : o.send with
      | error er => simp [CreateDocumentation, hg, hs, hr]
      | ok u2 => simp [CreateDocumentation, hg, hs, hr] at he

theorem decisionHandle_error_no_reply (o : Oracles) (msg : Message)
    (h : ∃ e, (decisionHandle o msg).1 = .error e) :
    noReply (decisionHandle o msg).2 := by
  intro tgt text
  obtain ⟨e, he⟩ := h
  unfold decisionHandle replyToMessage at *
  cases hg : o.generateDoc with
  | error eg => simp [CreateDocumentation, hg]
  | ok doc => cases hs : o.store with
    | error es => simp [CreateDocumentation, hg, hs]
    | ok u => cases hr : o.send with
      | error er => simp [CreateDocumentation, hg, hs, hr]
      | ok u2 => simp [CreateDocumentation, hg, hs, hr] at he

theorem statusHandle_error_no_reply (o : Oracles) (msg : Message)
    (h : ∃ e, (statusHandle o msg).1 = .error e) :
    noReply (statusHandle o msg).2 := by
  intro tgt text
  obtain ⟨e, he⟩ := h
  unfold statusHandle replyToMessage at *
  cases hg : o.generateDoc with
  | error eg => simp [CreateDocumentation, hg]
  | ok doc => cases hs : o.store with
    | error es => simp [CreateDocumentation, hg, hs]
    | ok u => cases hr : o.send with
      | error er => simp [CreateDocumentation, hg, hs, hr]
      | ok u2 => simp [CreateDocumentation, hg, hs, hr] at he

theorem unknownHandle_cases (o : Oracles) (msg : Message)
    (a : MessageAnalysisResult) :
    ((¬a.IsHighConfidence ∨ ¬a.HasSuggestedTags) ∧
      handleUnknownWithAnalysis o msg a = (.ok (), [])) ∨
    ((a.IsHighConfidence ∧ a.HasSuggestedTags) ∧
      handleUnknownWithAnalysis o msg a
        = replyToMessage o msg.id (suggestionText a.suggestedTags)) := by
  by_cases hc : ¬a.IsHighConfidence ∨ ¬a.HasSuggestedTags
  · exact Or.inl ⟨hc, by unfold handleUnknownWithAnalysis; rw [if_pos hc]⟩
  · refine Or.inr ⟨?_, by unfold handleUnknownWithAnalysis; rw [if_neg hc]⟩
    push_neg at hc
    exact ⟨hc.1, hc.2⟩

theorem unknownHandle_error_no_reply (o : Oracles) (msg : Message)
    (a : MessageAnalysisResult)
    (h : ∃ e, (handleUnknownWithAnalysis o msg a).1 = .error e) :
    noReply (handleUnknownWithAnalysis o msg a).2 := by
  obtain ⟨e, he⟩ := h
  rcases unknownHandle_cases o msg a with ⟨_, hcase⟩ | ⟨_, hcase⟩ <;>
    rw [hcase] at he ⊢
  · intro tgt text
    simp
  · unfold replyToMessage at he ⊢
    cases hr : o.send with
    | error er => intro tgt text; simp [hr]
    | ok u2 => rw [hr] at he; simp at he

theorem route_cases (o : Oracles) (msg : Message)
    (a : MessageAnalysisResult) :
    (a.messageType = MessageTypeIdea ∧ route o msg a = ideaHandle o msg) ∨
    (a.messageType = MessageTypeDecision ∧
      route o msg a = decisionHandle o msg) ∨
    (a.messageType = MessageTypeStatus ∧
      route o msg a = statusHandle o msg) ∨
    (a.messageType = MessageTypeUnknown ∧
      route o msg a = handleUnknownWithAnalysis o msg a) ∨
    route o msg a = (.error "runtime panic: nil message handler", []) := by
  by_cases h1 : a.messageType = MessageTypeIdea
  · exact Or.inl ⟨h1, by unfold route; rw [if_pos h1]⟩
  by_cases h2 : a.messageType = MessageTypeDecision
  · exact Or.inr (Or.inl ⟨h2, by
      unfold route; rw [if_neg h1, if_pos h2]⟩)
  by_cases h3 : a.messageType = MessageTypeStatus
  · exact Or.inr (Or.inr (Or.inl ⟨h3, by
      unfold route; rw [if_neg h1, if_neg h2, if_pos h3]⟩))
  by_cases h4 : a.messageType = MessageTypeUnknown
  · exact Or.inr (Or.inr (Or.inr (Or.inl ⟨h4, by
      unfold route; rw [if_neg h1, if_neg h2, if_neg h3, if_pos h4]⟩)))
  · exact Or.inr (Or.inr (Or.inr (Or.inr (by
      unfold route; rw [if_neg h1, if_neg h2, if_neg h3, if_neg h4]))))

theorem route_error_no_reply (o : Oracles) (msg : Message)
    (a : MessageAnalysisResult)
    (h : ∃ e, (route o msg a).1 = .error e) :
    noReply (route o msg a).2 := by
  rcases route_cases o msg a with ⟨_, hr⟩ | ⟨_, hr⟩ | ⟨_, hr⟩ | ⟨_, hr⟩ | hr <;>
    rw [hr] at h ⊢
  · exact ideaHandle_error_no_reply o msg h
  · exact decisionHandle_error_no_reply o msg h
  · exact statusHandle_error_no_reply o msg h
  · exact unknownHandle_error_no_reply o msg a h
  · intro tgt text
    simp

theorem unknownHandle_no_store (o : Oracles) (msg : Message)
    (a : MessageAnalysisResult) :
    noStore (handleUnknownWithAnalysis o msg a).2 := by
  rcases unknownHandle_cases o msg a with ⟨_, hcase⟩ | ⟨_, hcase⟩ <;>
    rw [hcase]
  · intro path doc
    simp
  · unfold replyToMessage
    cases hr : o.send with
    | error er => intro path doc; simp
    | ok u2 => intro path doc; simp

theorem ideaHandle_no_detect (o : Oracles) (msg : Message) :
    Event.detectCall ∉ (ideaHandle o msg).2 := by
  unfold ideaHandle CreateDocumentation replyToMessage
  cases hg : o.generateDoc with
  | error e => simp
  | ok doc => cases hs : o.store with
    | error e => simp
    | ok u => cases hr : o.send with
      | error e => simp
      | ok u2 => simp

theorem decisionHandle_no_detect (o : Oracles) (msg : Message) :
    Event.detectCall ∉ (decisionHandle o msg).2 := by
  unfold decisionHandle CreateDocumentation replyToMessage
  cases hg : o.generateDoc with
  | error e => simp
  | ok doc => cases hs : o.store with
    | error e => simp
    | ok u => cases hr : o.send with
      | error e => simp
      | ok u2 => simp

theorem statusHandle_no_detect (o : Oracles) (msg : Message) :
    Event.detectCall ∉ (statusHandle o msg).2 := by
  unfold statusHandle CreateDocumentation replyToMessage
  cases hg : o.generateDoc with
  | error e => simp
  | ok doc => cases hs : o.store with
    | error e => simp
    | ok u => cases hr : o.send with
      | error e => simp
      | ok u2 => simp

theorem unknownHandle_no_detect (o : Oracles) (msg : Message)
    (a : MessageAnalysisResult) :
    Event.detectCall ∉ (handleUnknownWithAnalysis o msg a).2 := by
  rcases unknownHandle_cases o msg a with ⟨_, hcase⟩ | ⟨_, hcase⟩ <;>
    rw [hcase]
  · simp
  · unfold replyToMessage
    cases hr : o.send with
    | error e => simp
    | ok u2 => simp

theorem route_no_detect (o : Oracles) (msg : Message)
    (a : MessageAnalysisResult) :
    Event.detectCall ∉ (route o msg a).2 := by
  rcases route_cases o msg a with ⟨_, hr⟩ | ⟨_, hr⟩ | ⟨_, hr⟩ | ⟨_, hr⟩ | hr <;>
    rw [hr]
  · exact ideaHandle_no_detect o msg
  · exact decisionHandle_no_detect o msg
  · exact statusHandle_no_detect o msg
  · exact unknownHandle_no_detect o msg a
  · simp

/-- route of an unknown-type analysis is the unknown handler with the
analysis passed through (`SuggestionsHandler` dispatch). -/
theorem route_unknown_eq (o : Oracles) (msg : Message)
    (a : MessageAnalysisResult)
    (ht : a.messageType = MessageTypeUnknown) :
    route o msg a = handleUnknownWithAnalysis o msg a := by
  unfold route
  rw [if_neg (by rw [ht]; decide), if_neg (by rw [ht]; decide),
    if_neg (by rw [ht]; decide), if_pos ht]

theorem isHighConfidence_iff (a : MessageAnalysisResult) :
    a.IsHighConfidence = true
      ↔ highConfidenceThreshold ≤ a.confidenceScore := by
  simp [MessageAnalysisResult.IsHighConfidence]

theorem hasSuggestedTags_iff (a : MessageAnalysisResult) :
    a.HasSuggestedTags = true ↔ a.suggestedTags ≠ [] := by
  simp [MessageAnalysisResult.HasSuggestedTags, List.length_pos]

/-- Shared characterization of unknown-type routing: with a healthy
transport, the trace is the single suggestion reply when confidence
reaches the threshold and tags exist, and empty otherwise. -/
theorem unknownRoute_trace (o : Oracles) (msg : Message)
    (a : MessageAnalysisResult)
    (ht : a.messageType = MessageTypeUnknown)
    (hsend : o.send = .ok ()) :
    ((highConfidenceThreshold ≤ a.confidenceScore ∧ a.suggestedTags ≠ []) →
        (route o msg a).2
          = [Event.reply msg.id (suggestionText a.suggestedTags)]) ∧
    (¬(highConfidenceThreshold ≤ a.confidenceScore ∧ a.suggestedTags ≠ []) →
        (route o msg a).2 = []) := by
  rw [route_unknown_eq o msg a ht]
  refine ⟨?_, ?_⟩
  · rintro ⟨hconf, htags⟩
    have hcond : ¬(¬a.IsHighConfidence ∨ ¬a.HasSuggestedTags) := by
      rw [not_or, not_not, not_not, isHighConfidence_iff,
        hasSuggestedTags_iff]
      exact ⟨hconf, htags⟩
    unfold handleUnknownWithAnalysis
    rw [if_neg hcond]
    unfold replyToMessage
    rw [hsend]
  · intro hncond
    have hcond : ¬a.IsHighConfidence ∨ ¬a.HasSuggestedTags := by
      by_contra hno
      rw [not_or, not_not, not_not] at hno
      exact hncond ⟨(isHighConfidence_iff a).mp hno.1,
        (hasSuggestedTags_iff a).mp hno.2⟩
    unfold handleUnknownWithAnalysis
    rw [if_pos hcond]

/-- **C4.** A message routed with analysis type `unknown` gets exactly
one reply — the tag-suggestion text, which contains every suggested
tag as a `- #tag` line — exactly when the analysis confidence is at
least `0.8` and the suggested-tag list is non-empty; otherwise the
handler sends nothing; and no unknown-type routing ever stores a
document. (`hsend` says the outbound chat transport accepts the
reply.) -/
theorem unknown_route_reply_iff_high_conf_and_tags
    (o : Oracles) (msg : Message) (a : MessageAnalysisResult)
    (ht : a.messageType = MessageTypeUnknown)
    (hsend : o.send = .ok ()) :
    ((highConfidenceThreshold ≤ a.confidenceScore ∧ a.suggestedTags ≠ []) →
        (route o msg a).2
          = [Event.reply msg.id (suggestionText a.suggestedTags)] ∧
        ∀ t ∈ a.suggestedTags,
          containsSub (suggestionText a.suggestedTags)
            ("- #" ++ t ++ "\n")) ∧
    (¬(highConfidenceThreshold ≤ a.confidenceScore ∧ a.suggestedTags ≠ []) →
        (route o msg a).2 = []) ∧
    (∀ o2 m2 a2, a2.messageType = MessageTypeUnknown →
        noStore (route o2 m2 a2).2) := by
  refine ⟨?_, (unknownRoute_trace o msg a ht hsend).2, ?_⟩
  · intro hcond
    exact ⟨(unknownRoute_trace o msg a ht hsend).1 hcond,
      fun t htmem => suggestion_foldl_contains
        a.suggestedTags t htmem suggestionHeader⟩
  · intro o2 m2 a2 ht2
    rw [route_unknown_eq o2 m2 a2 ht2]
    exact unknownHandle_no_store o2 m2 a2

/-- A sample inbound message used by the concrete witnesses. -/
def sampleMessage : Message :=
  { id := "C123", threadID := "TH1", sender := "alice",
    content := "let us switch to blue-green deploys",
    messageType := MessageTypeUnknown, category := CategoryOther,
    references := [] }

/-- An unknown-type analysis with confidence `0.9` and two suggested
tags. -/
def tagAnalysis : MessageAnalysisResult :=
  { messageType := MessageTypeUnknown, category := CategoryOther,
    references := [], confidenceScore := mkRat 9 10,
    suggestedTags := ["deploy", "ops"] }

/-- Collaborators that all succeed. -/
def allOkOracles : Oracles :=
  { analyze := .ok tagAnalysis, detect := .ok [],
    generateDoc := .ok "RENDERED", store := .ok (), send := .ok (),
    now := "20250101-120000" }

/-- Witness for C4: at confidence `0.9` with tags `["deploy", "ops"]`
the unknown routing sends exactly the one suggestion reply. -/
theorem unknown_route_reply_witness :
    (route allOkOracles sampleMessage tagAnalysis).2
      = [Event.reply sampleMessage.id
          (suggestionText tagAnalysis.suggestedTags)] :=
  ((unknown_route_reply_iff_high_conf_and_tags allOkOracles
    sampleMessage tagAnalysis rfl rfl).1 ⟨by decide, by decide⟩).1

/-- An unknown-type analysis with confidence `0.5` (below the `0.8`
threshold) and a non-empty suggested-tag list. -/
def lowConfAnalysis : MessageAnalysisResult :=
  { messageType := MessageTypeUnknown, category := CategoryOther,
    references := [], confidenceScore := mkRat 1 2,
    suggestedTags := ["deploy"] }

/-- **C5 counterexample.** The claim says a below-threshold confidence
with type `unknown` surfaces the suggested tags to the user. At the
explicit input: confidence `0.5`, type `unknown`, tags `["deploy"]`,
transport healthy — the routing returns `nil` with an empty event
trace: the tags are silently discarded, not surfaced. -/
theorem low_confidence_tags_discarded_cex :
    route allOkOracles sampleMessage lowConfAnalysis = (.ok (), []) := by
  rw [route_unknown_eq allOkOracles sampleMessage lowConfAnalysis rfl]
  unfold handleUnknownWithAnalysis
  rw [if_pos (Or.inl (by decide))]

/-- **C5 (amended).** For an unknown-type analysis with a healthy
outbound transport, the suggested tags are surfaced (a reply event
occurs) exactly when the confidence is at least the fixed `0.8`
threshold and the tag list is non-empty; below the threshold the tags
are silently discarded. -/
theorem tags_surfaced_iff_high_confidence
    (o : Oracles) (msg : Message) (a : MessageAnalysisResult)
    (ht : a.messageType = MessageTypeUnknown)
    (hsend : o.send = .ok ()) :
    (∃ tgt text, Event.reply tgt text ∈ (route o msg a).2)
      ↔ (highConfidenceThreshold ≤ a.confidenceScore ∧
          a.suggestedTags ≠ []) := by
  constructor
  · intro hreply
    by_contra hncond
    obtain ⟨tgt, text, hmem⟩ := hreply
    rw [(unknownRoute_trace o msg a ht hsend).2 hncond] at hmem
    cases hmem
  · intro hcond
    refine ⟨msg.id, suggestionText a.suggestedTags, ?_⟩
    rw [(unknownRoute_trace o msg a ht hsend).1 hcond]
    exact List.mem_singleton.mpr rfl

/-- Witness for the amended C5: at confidence `0.9` with a non-empty
tag list a reply event is produced. -/
theorem tags_surfaced_iff_high_confidence_witness :
    ∃ tgt text,
      Event.reply tgt text ∈ (route allOkOracles sampleMessage
        tagAnalysis).2 :=
  (tags_surfaced_iff_high_confidence allOkOracles sampleMessage
    tagAnalysis rfl rfl).mpr ⟨by decide, by decide⟩

/-! ### Evaluation lemmas for the pipeline -/

theorem hasReferences_iff (m : Message) :
    m.HasReferences = true ↔ m.references ≠ [] := by
  simp [Message.HasReferences, List.length_pos]

theorem ProcessMessage_analyze_error (o : Oracles) (msg : Message)
    (e : GoError) (ha : o.analyze = .error e) :
    ProcessMessage o msg
      = (.error ("failed to analyze message: AI analysis failed: " ++ e),
         msg, []) := by
  unfold ProcessMessage analyzeMessage
  rw [ha]
  rfl

theorem ProcessMessage_refs_present (o : Oracles) (msg : Message)
    (a : MessageAnalysisResult) (ha : o.analyze = .ok a)
    (h : (updateMessageWithAnalysis msg a).references ≠ []) :
    ProcessMessage o msg
      = ((route o (updateMessageWithAnalysis msg a) a).1,
         updateMessageWithAnalysis msg a,
         (route o (updateMessageWithAnalysis msg a) a).2) := by
  have hb : (updateMessageWithAnalysis msg a).HasReferences = true :=
    (hasReferences_iff _).mpr h
  unfold ProcessMessage analyzeMessage
  rw [ha]
  simp only [hb, not_true, if_false]

theorem ProcessMessage_detect_error (o : Oracles) (msg : Message)
    (a : MessageAnalysisResult) (e : GoError) (ha : o.analyze = .ok a)
    (h : (updateMessageWithAnalysis msg a).references = [])
    (hd : o.detect = .error e) :
    ProcessMessage o msg
      = (.error ("failed to detect references: " ++ e),
         updateMessageWithAnalysis msg a, [Event.detectCall]) := by
  have hb : ¬(updateMessageWithAnalysis msg a).HasReferences = true :=
    fun hh => ((hasReferences_iff _).mp hh) h
  unfold ProcessMessage analyzeMessage detectAndAddReferences
  simp only [ha, hd]
  rw [if_pos hb]

theorem ProcessMessage_detect_ok (o : Oracles) (msg : Message)
    (a : MessageAnalysisResult) (refs : List Reference)
    (ha : o.analyze = .ok a)
    (h : (updateMessageWithAnalysis msg a).references = [])
    (hd : o.detect = .ok refs) :
    ProcessMessage o msg
      = ((route o (refs.foldl Message.AddReference
            (updateMessageWithAnalysis msg a)) a).1,
         refs.foldl Message.AddReference (updateMessageWithAnalysis msg a),
         Event.detectCall ::
           (route o (refs.foldl Message.AddReference
             (updateMessageWithAnalysis msg a)) a).2) := by
  have hb : ¬(updateMessageWithAnalysis msg a).HasReferences = true :=
    fun hh => ((hasReferences_iff _).mp hh) h
  unfold ProcessMessage analyzeMessage detectAndAddReferences
  simp only [ha, hd]
  rw [if_pos hb]

/-- **C6.** Given a successful analysis, the reference-detection
oracle is invoked exactly when the message's reference list is empty
after the analysis merge; the final message's reference list extends
the merged one (detection only appends, and appends nothing when
references already existed); and a detection failure surfaces the
wrapped oracle error as the `ProcessMessage` result with no handler
side effects (the trace stops at the detection call). -/
theorem detect_references_iff_absent (o : Oracles) (msg : Message)
    (a : MessageAnalysisResult) (ha : o.analyze = .ok a) :
    (Event.detectCall ∈ (ProcessMessage o msg).2.2
      ↔ (updateMessageWithAnalysis msg a).references = []) ∧
    (∃ extra, (ProcessMessage o msg).2.1.references
        = (updateMessageWithAnalysis msg a).references ++ extra ∧
      ((updateMessageWithAnalysis msg a).references ≠ [] → extra = [])) ∧
    (∀ e, (updateMessageWithAnalysis msg a).references = [] →
        o.detect = .error e →
        (ProcessMessage o msg).1
          = .error ("failed to detect references: " ++ e) ∧
        (ProcessMessage o msg).2.2 = [Event.detectCall]) := by
  refine ⟨?_, ?_, ?_⟩
  · by_cases h : (updateMessageWithAnalysis msg a).references = []
    · cases hd : o.detect with
      | error e =>
          rw [ProcessMessage_detect_error o msg a e ha h hd]
          simpa using h
      | ok refs =>
          rw [ProcessMessage_detect_ok o msg a refs ha h hd]
          simpa using h
    · rw [ProcessMessage_refs_present o msg a ha h]
      exact iff_of_false (route_no_detect o _ a) h
  · by_cases h : (updateMessageWithAnalysis msg a).references = []
    · cases hd : o.detect with
      | error e =>
          rw [ProcessMessage_detect_error o msg a e ha h hd]
          exact ⟨[], by simp, fun hne => absurd h hne⟩
      | ok refs =>
          rw [ProcessMessage_detect_ok o msg a refs ha h hd]
          exact ⟨refs,
            addReference_foldl refs (updateMessageWithAnalysis msg a),
            fun hne => absurd h hne⟩
    · rw [ProcessMessage_refs_present o msg a ha h]
      exact ⟨[], by simp, fun _ => rfl⟩
  · intro e2 h2 hd2
    rw [ProcessMessage_detect_error o msg a e2 ha h2 hd2]
    exact ⟨rfl, rfl⟩

/-- Witness for C6: with sample oracles whose analysis yields no
references, the detection oracle is invoked on the merged message. -/
theorem detect_references_iff_absent_witness :
    Event.detectCall
      ∈ (ProcessMessage allOkOracles sampleMessage).2.2 :=
  (detect_references_iff_absent allOkOracles sampleMessage
    tagAnalysis rfl).1.mpr (by decide)

/-! ### Evaluation lemmas for the documentation handlers -/

theorem CreateDocumentation_gen_error (o : Oracles) (mt : MessageType)
    (c : Category) (g : GoError) (hg : o.generateDoc = .error g) :
    CreateDocumentation o mt c
      = (.error ("failed to generate documentation: " ++ g), []) := by
  unfold CreateDocumentation
  rw [hg]

theorem CreateDocumentation_store_error (o : Oracles) (mt : MessageType)
    (c : Category) (doc : String) (e : GoError)
    (hg : o.generateDoc = .ok doc) (hs : o.store = .error e) :
    CreateDocumentation o mt c
      = (.error ("failed to store documentation: " ++ e), []) := by
  unfold CreateDocumentation
  rw [hg, hs]

theorem CreateDocumentation_ok (o : Oracles) (mt : MessageType)
    (c : Category) (doc : String)
    (hg : o.generateDoc = .ok doc) (hs : o.store = .ok ()) :
    CreateDocumentation o mt c
      = (.ok (), [Event.storeDoc (generatePath mt c o.now) doc]) := by
  unfold CreateDocumentation
  rw [hg, hs]

theorem ideaHandle_gen_error (o : Oracles) (msg : Message) (g : GoError)
    (hg : o.generateDoc = .error g) :
    ideaHandle o msg
      = (.error ("failed to create idea documentation: "
          ++ ("failed to generate documentation: " ++ g)), []) := by
  unfold ideaHandle
  rw [CreateDocumentation_gen_error o msg.messageType msg.category g hg]

theorem decisionHandle_gen_error (o : Oracles) (msg : Message)
    (g : GoError) (hg : o.generateDoc = .error g) :
    decisionHandle o msg
      = (.error ("failed to create decision documentation: "
          ++ ("failed to generate documentation: " ++ g)), []) := by
  unfold decisionHandle
  rw [CreateDocumentation_gen_error o msg.messageType msg.category g hg]

theorem statusHandle_gen_error (o : Oracles) (msg : Message)
    (g : GoError) (hg : o.generateDoc = .error g) :
    statusHandle o msg
      = (.error ("failed to create status documentation: "
          ++ ("failed to generate documentation: " ++ g)), []) := by
  unfold statusHandle
  rw [CreateDocumentation_gen_error o msg.messageType msg.category g hg]

theorem decisionHandle_store_error (o : Oracles) (msg : Message)
    (doc : String) (e : GoError)
    (hg : o.generateDoc = .ok doc) (hs : o.store = .error e) :
    decisionHandle o msg
      = (.error ("failed to create decision documentation: "
          ++ ("failed to store documentation: " ++ e)), []) := by
  unfold decisionHandle
  rw [CreateDocumentation_store_error o msg.messageType msg.category
    doc e hg hs]

theorem decisionHandle_send_error (o : Oracles) (msg : Message)
    (doc : String) (e : GoError)
    (hg : o.generateDoc = .ok doc) (hs : o.store = .ok ())
    (hr : o.send = .error e) :
    decisionHandle o msg
      = (.error ("failed to reply to message: " ++ e),
         [Event.storeDoc (generatePath msg.messageType msg.category o.now)
           doc]) := by
  unfold decisionHandle
  rw [CreateDocumentation_ok o msg.messageType msg.category doc hg hs]
  unfold replyToMessage
  rw [hr]
  rfl

theorem decisionHandle_all_ok (o : Oracles) (msg : Message)
    (doc : String)
    (hg : o.generateDoc = .ok doc) (hs : o.store = .ok ())
    (hr : o.send = .ok ()) :
    decisionHandle o msg
      = (.ok (),
         [Event.storeDoc (generatePath msg.messageType msg.category o.now)
            doc,
          Event.reply msg.id
            ("✅ Recorded decision in category: " ++ msg.category
              ++ referenceSuffix msg)]) := by
  unfold decisionHandle
  rw [CreateDocumentation_ok o msg.messageType msg.category doc hg hs]
  unfold replyToMessage
  rw [hr]
  rfl

theorem referenceSuffix_eq (msg : Message) :
    referenceSuffix msg
      = (if msg.references ≠ []
         then "\n🔗 Linked to " ++ toString msg.references.length
           ++ " related items"
         else "") := by
  unfold referenceSuffix
  by_cases h : msg.references = []
  · rw [if_neg (fun hh => ((hasReferences_iff msg).mp hh) h),
      if_neg (fun hh => hh h)]
  · rw [if_pos ((hasReferences_iff msg).mpr h), if_pos h]

theorem route_idea_eq (o : Oracles) (msg : Message)
    (a : MessageAnalysisResult)
    (ht : a.messageType = MessageTypeIdea) :
    route o msg a = ideaHandle o msg := by
  unfold route
  rw [if_pos ht]

theorem route_decision_eq (o : Oracles) (msg : Message)
    (a : MessageAnalysisResult)
    (ht : a.messageType = MessageTypeDecision) :
    route o msg a = decisionHandle o msg := by
  unfold route
  rw [if_neg (by rw [ht]; decide), if_pos ht]

theorem route_status_eq (o : Oracles) (msg : Message)
    (a : MessageAnalysisResult)
    (ht : a.messageType = MessageTypeStatus) :
    route o msg a = statusHandle o msg := by
  unfold route
  rw [if_neg (by rw [ht]; decide), if_neg (by rw [ht]; decide), if_pos ht]

/-- **C8.** Whenever the decision handler returns success, the trace
is exactly one stored document — at the path derived from the
message's type, category and the generation timestamp — followed by
exactly one reply `"✅ Recorded decision in category: {category}"`,
carrying the reference-count suffix exactly when the message has at
least one reference. (`route` sends every decision-classified message
to this handler, last conjunct.) -/
theorem decision_success_store_and_reply (o : Oracles) (msg : Message)
    (h : (decisionHandle o msg).1 = .ok ()) :
    (∃ doc, o.generateDoc = .ok doc ∧
      (decisionHandle o msg).2
        = [Event.storeDoc
             (generatePath msg.messageType msg.category o.now) doc,
           Event.reply msg.id
             ("✅ Recorded decision in category: " ++ msg.category
               ++ (if msg.references ≠ []
                   then "\n🔗 Linked to " ++ toString msg.references.length
                     ++ " related items"
                   else ""))]) ∧
    (∀ a, a.messageType = MessageTypeDecision →
        route o msg a = decisionHandle o msg) := by
  refine ⟨?_, fun a ht => route_decision_eq o msg a ht⟩
  cases hg : o.generateDoc with
  | error g =>
      rw [decisionHandle_gen_error o msg g hg] at h
      cases h
  | ok doc =>
      refine ⟨doc, rfl, ?_⟩
      cases hs : o.store with
      | error e =>
          rw [decisionHandle_store_error o msg doc e hg hs] at h
          cases h
      | ok u =>
          cases hr : o.send with
          | error e =>
              rw [decisionHandle_send_error o msg doc e hg hs hr] at h
              cases h
          | ok u2 =>
              rw [decisionHandle_all_ok o msg doc hg hs hr,
                referenceSuffix_eq msg]

/-- A decision-typed message carrying one reference, for the concrete
witnesses. -/
def decisionMessage : Message :=
  { id := "C200", threadID := "TH2", sender := "bob",
    content := "we will switch to blue-green deploys",
    messageType := MessageTypeDecision, category := CategoryOther,
    references := [{ refType := "message", value := "C100" }] }

/-- Witness for C8: with all collaborators healthy, handling
`decisionMessage` succeeds and produces exactly the store and the
suffixed reply. -/
theorem decision_success_store_and_reply_witness :
    ∃ doc, allOkOracles.generateDoc = .ok doc ∧
      (decisionHandle allOkOracles decisionMessage).2
        = [Event.storeDoc
             (generatePath decisionMessage.messageType
               decisionMessage.category allOkOracles.now) doc,
           Event.reply decisionMessage.id
             ("✅ Recorded decision in category: "
               ++ decisionMessage.category
               ++ (if decisionMessage.references ≠ []
                   then "\n🔗 Linked to "
                     ++ toString decisionMessage.references.length
                     ++ " related items"
                   else ""))] :=
  (decision_success_store_and_reply allOkOracles decisionMessage rfl).1

/-- A decision-classified analysis with confidence `0.92` and no
references or tags. -/
def decisionAnalysis : MessageAnalysisResult :=
  { messageType := MessageTypeDecision, category := CategoryOperations,
    references := [], confidenceScore := mkRat 23 25,
    suggestedTags := [] }

/-- Collaborators where only the outbound reply transport fails. -/
def replyFailOracles : Oracles :=
  { analyze := .ok decisionAnalysis, detect := .ok [],
    generateDoc := .ok "RENDERED", store := .ok (),
    send := .error "network down", now := "20250101-120000" }

/-- **C9 counterexample.** The claim says an erroring `ProcessMessage`
stored no document. At the explicit input: a decision-classified
message whose document generates and stores fine but whose reply send
fails, `ProcessMessage` returns the reply error *and* the trace
contains the stored document. -/
theorem process_error_with_stored_document_cex :
    (ProcessMessage replyFailOracles decisionMessage).1
      = .error "failed to reply to message: network down" ∧
    Event.storeDoc
      (generatePath MessageTypeDecision CategoryOperations
        "20250101-120000")
      "RENDERED"
      ∈ (ProcessMessage replyFailOracles decisionMessage).2.2 :=
  ⟨rfl, by decide⟩

/-- **C9 (amended).** If `ProcessMessage` returns an error, no reply
was sent; but a document may already have been stored when the
failure occurred at the reply step (side effects before the failing
step are not rolled back). A classification-oracle failure yields an
error with no side effects at all, and a documentation-generation
failure on a doc-producing type yields an error with neither a stored
document nor a reply. -/
theorem process_error_effects (o : Oracles) (msg : Message) :
    ((∃ e, (ProcessMessage o msg).1 = .error e) →
        noReply (ProcessMessage o msg).2.2) ∧
    (∀ e, o.analyze = .error e →
        (∃ e2, (ProcessMessage o msg).1 = .error e2) ∧
        (ProcessMessage o msg).2.2 = []) ∧
    (∀ a g, o.analyze = .ok a →
        (a.messageType = MessageTypeIdea ∨
         a.messageType = MessageTypeDecision ∨
         a.messageType = MessageTypeStatus) →
        o.generateDoc = .error g →
        (∃ e2, (ProcessMessage o msg).1 = .error e2) ∧
        noStore (ProcessMessage o msg).2.2 ∧
        noReply (ProcessMessage o msg).2.2) := by
  refine ⟨?_, ?_, ?_⟩
  · cases han : o.analyze with
    | error e =>
        rw [ProcessMessage_analyze_error o msg e han]
        intro _ tgt text
        simp
    | ok a =>
        by_cases h : (updateMessageWithAnalysis msg a).references = []
        · cases hd : o.detect with
          | error e =>
              rw [ProcessMessage_detect_error o msg a e han h hd]
              intro _ tgt text
              simp
          | ok refs =>
              rw [ProcessMessage_detect_ok o msg a refs han h hd]
              intro herr tgt text
              have hnr := route_error_no_reply o
                (refs.foldl Message.AddReference
                  (updateMessageWithAnalysis msg a)) a herr
              intro hmem
              rcases List.mem_cons.mp hmem with hmem | hmem
              · cases hmem
              · exact hnr tgt text hmem
        · rw [ProcessMessage_refs_present o msg a han h]
          intro herr
          exact route_error_no_reply o
            (updateMessageWithAnalysis msg a) a herr
  · intro e han
    rw [ProcessMessage_analyze_error o msg e han]
    exact ⟨⟨_, rfl⟩, rfl⟩
  · intro a g han htype hg
    have hroute : ∀ m2 : Message,
        (∃ e2, (route o m2 a).1 = .error e2) ∧ (route o m2 a).2 = [] := by
      intro m2
      rcases htype with ht | ht | ht
      · rw [route_idea_eq o m2 a ht, ideaHandle_gen_error o m2 g hg]
        exact ⟨⟨_, rfl⟩, rfl⟩
      · rw [route_decision_eq o m2 a ht,
          decisionHandle_gen_error o m2 g hg]
        exact ⟨⟨_, rfl⟩, rfl⟩
      · rw [route_status_eq o m2 a ht, statusHandle_gen_error o m2 g hg]
        exact ⟨⟨_, rfl⟩, rfl⟩
    by_cases h : (updateMessageWithAnalysis msg a).references = []
    · cases hd : o.detect with
      | error e =>
          rw [ProcessMessage_detect_error o msg a e han h hd]
          exact ⟨⟨_, rfl⟩, fun p d => by simp, fun tgt text => by simp⟩
      | ok refs =>
          rw [ProcessMessage_detect_ok o msg a refs han h hd]
          obtain ⟨⟨e2, he2⟩, hevs⟩ := hroute
            (refs.foldl Message.AddReference
              (updateMessageWithAnalysis msg a))
          refine ⟨⟨e2, he2⟩, ?_, ?_⟩
          · intro p d
            rw [hevs]
            simp
          · intro tgt text
            rw [hevs]
            simp
    · rw [ProcessMessage_refs_present o msg a han h]
      obtain ⟨⟨e2, he2⟩, hevs⟩ := hroute (updateMessageWithAnalysis msg a)
      refine ⟨⟨e2, he2⟩, ?_, ?_⟩
      · intro p d
        rw [hevs]
        simp
      · intro tgt text
        rw [hevs]
        simp

/-- Collaborators where only documentation generation fails. -/
def genFailOracles : Oracles :=
  { analyze := .ok decisionAnalysis, detect := .ok [],
    generateDoc := .error "llm down", store := .ok (), send := .ok (),
    now := "20250101-120000" }

/-- Witness for the amended C9: a documentation-generation failure on
a decision-classified message produces an erroring pipeline run with
neither a stored document nor a reply. -/
theorem process_error_effects_witness :
    (∃ e2, (ProcessMessage genFailOracles decisionMessage).1
        = .error e2) ∧
    noStore (ProcessMessage genFailOracles decisionMessage).2.2 ∧
    noReply (ProcessMessage genFailOracles decisionMessage).2.2 :=
  (process_error_effects genFailOracles decisionMessage).2.2
    decisionAnalysis "llm down" rfl (Or.inr (Or.inl rfl)) rfl

/-! ### Slack thread correlation
(`providers/chat/slack/client.go`, `processMessageEvent`)

`common.GenerateID` produces a fresh, never-before-seen ULID on every
call; freshness is modelled by a monotone counter, so a ThreadId is a
`Nat` and the state carries the next unused one. The Go
`map[string]common.ID` is an association list whose insert prepends
(the most recent binding wins, as a map overwrite does). -/

/-- The thread-correlation state of the Slack client: `threadMap` is
the `threadMap` field, `nextId` models the ULID generator. -/
structure SlackThreadState where
  threadMap : List (String × Nat)
  nextId : Nat
deriving DecidableEq, Repr

def lookupMarker : List (String × Nat) → String → Option Nat
  | [], _ => none
  | (k, v) :: rest, key =>
      if k = key then some v else lookupMarker rest key

def insertMarker (m : List (String × Nat)) (k : String) (v : Nat) :
    List (String × Nat) :=
  (k, v) :: m

/-- Embeds the thread-mapping portion of `processMessageEvent`.
`timestamp` is `msg.Timestamp` and `threadTimestamp` is
`msg.ThreadTimestamp` (empty string means the event is not a reply).
The returned `Option Nat` is the ThreadId the event is emitted
downstream with; `none` means the function `return`ed early and the
event was dropped. The Go branches:
* reply with a registered parent marker: return its id (no insert);
* reply with an unregistered parent marker: generate a fresh id,
  register the parent marker, then `return` — the event is dropped;
* non-reply (root): generate a fresh id unconditionally and register
  it under the event's own timestamp, then emit. -/
def resolveThread (st : SlackThreadState)
    (timestamp threadTimestamp : String) :
    SlackThreadState × Option Nat :=
  if threadTimestamp ≠ "" then
    match lookupMarker st.threadMap threadTimestamp with
    | some id => (st, some id)
    | none =>
        ({ threadMap := insertMarker st.threadMap threadTimestamp
             st.nextId,
           nextId := st.nextId + 1 }, none)
  else
    ({ threadMap := insertMarker st.threadMap timestamp st.nextId,
       nextId := st.nextId + 1 }, some st.nextId)

theorem lookup_insert_self (m : List (String × Nat)) (k : String)
    (v : Nat) : lookupMarker (insertMarker m k v) k = some v := by
  simp [insertMarker, lookupMarker]

/-- **C1 counterexample.** The claim says two events with the same
conversation marker resolve to the same ThreadId. At the explicit
input — two root events (no parent marker) both carrying conversation
marker `"T1"`, resolved one after the other from the empty state (a
legal interleaving of the 100-concurrent-`Resolve` scenario) — the
first resolves to ThreadId `0` and the second to ThreadId `1`: the
code allocates a fresh id for every root without consulting the map,
splitting the conversation. -/
theorem same_marker_roots_split_cex :
    (resolveThread ⟨[], 0⟩ "T1" "").2 = some 0 ∧
    (resolveThread (resolveThread ⟨[], 0⟩ "T1" "").1 "T1" "").2
      = some 1 ∧
    (resolveThread ⟨[], 0⟩ "T1" "").2
      ≠ (resolveThread (resolveThread ⟨[], 0⟩ "T1" "").1 "T1" "").2 := by
  decide

/-- **C1 (amended).** A reply whose parent marker is registered
resolves to the registered ThreadId (so replies to the same parent
agree), but every root event allocates a fresh ThreadId — two
successive root events receive the distinct ids `nextId` and
`nextId + 1` whatever their markers, so two roots with the same
conversation marker split into different threads, and two unrelated
root markers also resolve to different ThreadIds. -/
theorem resolve_roots_fresh_replies_registered (st : SlackThreadState)
    (ts1 ts2 p : String) (i : Nat)
    (hp : p ≠ "") (hreg : lookupMarker st.threadMap p = some i) :
    resolveThread st ts1 p = (st, some i) ∧
    (resolveThread st ts2 p = (st, some i)) ∧
    ((resolveThread st ts1 "").2 = some st.nextId ∧
     (resolveThread (resolveThread st ts1 "").1 ts2 "").2
       = some (st.nextId + 1) ∧
     st.nextId ≠ st.nextId + 1) := by
  refine ⟨?_, ?_, ?_, ?_, Nat.ne_of_lt (Nat.lt_succ_self _)⟩
  · unfold resolveThread
    rw [if_pos hp, hreg]
  · unfold resolveThread
    rw [if_pos hp, hreg]
  · unfold resolveThread
    rw [if_neg (fun hh => hh rfl)]
  · simp [resolveThread]

/-- Witness for the amended C1: with `"T1"` registered at id `0` and
one id already used, two replies to `"T1"` both resolve to `0`, while
two roots get the fresh distinct ids `1` and `2`. -/
theorem resolve_roots_fresh_replies_registered_witness :
    resolveThread ⟨[("T1", 0)], 1⟩ "169.1" "T1"
      = (⟨[("T1", 0)], 1⟩, some 0) ∧
    (resolveThread ⟨[("T1", 0)], 1⟩ "170.2" "T1"
      = (⟨[("T1", 0)], 1⟩, some 0)) ∧
    ((resolveThread ⟨[("T1", 0)], 1⟩ "169.1" "").2 = some 1 ∧
     (resolveThread (resolveThread ⟨[("T1", 0)], 1⟩ "169.1" "").1
       "170.2" "").2 = some 2 ∧
     (1 : Nat) ≠ 1 + 1) :=
  resolve_roots_fresh_replies_registered ⟨[("T1", 0)], 1⟩ "169.1"
    "170.2" "T1" 0 (by decide) (by decide)

/-- **C2 counterexample.** The claim says a reply whose parent marker
is unregistered is resolved with a newly allocated ThreadId and still
processed (emitted downstream). At the explicit input — a reply with
parent marker `"T1"` arriving at the empty state — the code does
register `"T1"` at the fresh id `0`, but returns `none`: the orphaned
reply itself is dropped, not emitted. -/
theorem orphan_reply_dropped_cex :
    (resolveThread ⟨[], 0⟩ "169.1" "T1").2 = none ∧
    lookupMarker (resolveThread ⟨[], 0⟩ "169.1" "T1").1.threadMap "T1"
      = some 0 := by
  decide

/-- **C2 (amended).** An inbound reply whose parent marker is not yet
registered causes a new ThreadId to be allocated and registered for
the parent marker, but the orphaned reply itself is dropped (the
handler returns before emitting a message); only a later reply to
that parent resolves to the registered id and is emitted. -/
theorem orphan_reply_registered_but_dropped (st : SlackThreadState)
    (ts ts2 p : String) (hp : p ≠ "")
    (hmiss : lookupMarker st.threadMap p = none) :
    resolveThread st ts p
      = ({ threadMap := insertMarker st.threadMap p st.nextId,
           nextId := st.nextId + 1 }, none) ∧
    (resolveThread (resolveThread st ts p).1 ts2 p).2
      = some st.nextId := by
  have h1 : resolveThread st ts p
      = ({ threadMap := insertMarker st.threadMap p st.nextId,
           nextId := st.nextId + 1 }, none) := by
    unfold resolveThread
    rw [if_pos hp, hmiss]
  refine ⟨h1, ?_⟩
  rw [h1]
  unfold resolveThread
  rw [if_pos hp, lookup_insert_self]

/-- Witness for the amended C2: from the empty state, the orphan reply
to `"T1"` registers id `0` for `"T1"` and is dropped; the next reply
to `"T1"` resolves to `0`. -/
theorem orphan_reply_registered_but_dropped_witness :
    resolveThread ⟨[], 0⟩ "169.1" "T1"
      = ({ threadMap := insertMarker [] "T1" 0, nextId := 1 }, none) ∧
    (resolveThread (resolveThread ⟨[], 0⟩ "169.1" "T1").1
      "170.2" "T1").2 = some 0 :=
  orphan_reply_registered_but_dropped ⟨[], 0⟩ "169.1" "170.2" "T1"
    (by decide) (by decide)

/-! ### Message content (`message_content.go`)

For this value object the byte-level behaviour matters: Go's
`len(text)` and `text[:MaxContentLength]` act on UTF-8 bytes. The
input is the rune sequence of the Go string; the stored content is its
UTF-8 byte sequence, possibly cut mid-rune by the slice. -/

/-- Embeds Go's `unicode.IsSpace`: the Latin-1 white space characters
and the Unicode `White_Space` property code points. -/
def goIsSpace (c : Char) : Bool :=
  let n := c.toNat
  n == 9 || n == 10 || n == 11 || n == 12 || n == 13 || n == 32 ||
  n == 0x85 || n == 0xA0 || n == 0x1680 ||
  (0x2000 ≤ n && n ≤ 0x200A) ||
  n == 0x2028 || n == 0x2029 || n == 0x202F || n == 0x205F ||
  n == 0x3000

/-- Embeds `strings.TrimSpace`: drop white-space runes from both
ends. -/
def trimSpace (text : List Char) : List Char :=
  ((text.dropWhile goIsSpace).reverse.dropWhile goIsSpace).reverse

/-- The UTF-8 encoding of one code point (1 to 4 bytes, as Go strings
store them). -/
def utf8Bytes (c : Char) : List Nat :=
  let n := c.toNat
  if n < 0x80 then [n]
  else if n < 0x800 then [0xC0 + n / 0x40, 0x80 + n % 0x40]
  else if n < 0x10000 then
    [0xE0 + n / 0x1000, 0x80 + n / 0x40 % 0x40, 0x80 + n % 0x40]
  else
    [0xF0 + n / 0x40000, 0x80 + n / 0x1000 % 0x40,
     0x80 + n / 0x40 % 0x40, 0x80 + n % 0x40]

/-- The UTF-8 byte sequence of a rune sequence (the Go string's
bytes). -/
def utf8Encode (text : List Char) : List Nat :=
  (text.map utf8Bytes).flatten

/-- The source constant `MaxContentLength = 10000` (bytes). -/
def MaxContentLength : Nat := 10000

def ErrEmptyContent : GoError := "content cannot be empty"

/-- Embeds `NewMessageContent`: trim surrounding white space, reject
an empty remainder, and silently cut the byte sequence to the first
`MaxContentLength` bytes when longer. -/
def NewMessageContent (text : List Char) : Except GoError (List Nat) :=
  if trimSpace text = [] then .error ErrEmptyContent
  else
    .ok (if (utf8Encode (trimSpace text)).length > MaxContentLength
         then (utf8Encode (trimSpace text)).take MaxContentLength
         else utf8Encode (trimSpace text))

theorem utf8Bytes_ne_nil (c : Char) : utf8Bytes c ≠ [] := by
  unfold utf8Bytes
  by_cases h1 : c.toNat < 0x80
  · simp [h1]
  by_cases h2 : c.toNat < 0x800
  · simp [h1, h2]
  by_cases h3 : c.toNat < 0x10000
  · simp [h1, h2, h3]
  · simp [h1, h2, h3]

theorem utf8Encode_ne_nil (t : List Char) (h : t ≠ []) :
    utf8Encode t ≠ [] := by
  cases t with
  | nil => exact absurd rfl h
  | cons c rest =>
      unfold utf8Encode
      rw [List.map_cons, List.flatten_cons]
      intro hh
      exact utf8Bytes_ne_nil c (List.append_eq_nil.mp hh).1

/-- **C10.** Message-content construction first trims surrounding
white space and errors exactly when the trimmed text is empty; a
trimmed text longer than `10000` bytes is not rejected but silently
cut to its first `10000` bytes; so every successfully constructed
content holds between `1` and `10000` bytes. -/
theorem content_trim_truncate (text : List Char) :
    (∀ e, NewMessageContent text = .error e → trimSpace text = []) ∧
    (∀ bytes, NewMessageContent text = .ok bytes →
        trimSpace text ≠ [] ∧
        (if (utf8Encode (trimSpace text)).length > MaxContentLength
         then bytes = (utf8Encode (trimSpace text)).take MaxContentLength
         else bytes = utf8Encode (trimSpace text)) ∧
        1 ≤ bytes.length ∧ bytes.length ≤ MaxContentLength) := by
  by_cases ht : trimSpace text = []
  · refine ⟨fun e _ => ht, fun bytes hok => ?_⟩
    unfold NewMessageContent at hok
    rw [if_pos ht] at hok
    cases hok
  · refine ⟨fun e herr => ?_, fun bytes hok => ?_⟩
    · unfold NewMessageContent at herr
      rw [if_neg ht] at herr
      cases herr
    · unfold NewMessageContent at hok
      rw [if_neg ht] at hok
      have hne := utf8Encode_ne_nil (trimSpace text) ht
      by_cases hlen :
          (utf8Encode (trimSpace text)).length > MaxContentLength
      · rw [if_pos hlen] at hok
        cases hok
        refine ⟨ht, by rw [if_pos hlen], ?_, ?_⟩
        · rw [List.length_take]
          exact le_min (by norm_num [MaxContentLength])
            (Nat.one_le_iff_ne_zero.mpr
              (fun hz => hne (List.length_eq_zero.mp hz)))
        · rw [List.length_take]
          exact min_le_left _ _
      · rw [if_neg hlen] at hok
        cases hok
        refine ⟨ht, by rw [if_neg hlen], ?_, not_lt.mp hlen⟩
        exact Nat.one_le_iff_ne_zero.mpr
          (fun hz => hne (List.length_eq_zero.mp hz))

/-- Witness for C10: `"  hi  "` trims to `"hi"` and constructs the
two-byte content `[104, 105]`, within the 1 to 10000 byte bounds. -/
theorem content_trim_truncate_witness :
    trimSpace [' ', 'h', 'i', ' ', ' '] ≠ [] ∧
    (if (utf8Encode (trimSpace [' ', 'h', 'i', ' ', ' '])).length
        > MaxContentLength
     then [104, 105]
       = (utf8Encode (trimSpace [' ', 'h', 'i', ' ', ' '])).take
           MaxContentLength
     else [104, 105] = utf8Encode (trimSpace [' ', 'h', 'i', ' ', ' '])) ∧
    1 ≤ [104, 105].length ∧ [104, 105].length ≤ MaxContentLength :=
  (content_trim_truncate [' ', 'h', 'i', ' ', ' ']).2 [104, 105] rfl

end Quill
